import Mathlib

/-!
Verification of the Rohde & Schwarz instrument drivers
(`hardware/SMA_SMB_MW_sources.py` and `hardware/HMP2030.py`).

The drivers are embedded shallowly: every SCPI command or query string the
Python code sends is represented by a symbolic constructor carrying exactly
the numeric payloads the Python format strings would interpolate (frequency
payloads in GHz, as produced by `.to(ureg.GHz)`; power payloads are dBm
magnitudes, `.to(ureg.dBm).magnitude`).  Each driver method becomes a Lean
function from the instrument state to a result, a final instrument state and
the list of transport events it performs, in the order the Python code
performs them.  Numbers are rationals; the fixed-point rendering of a number
into the command string (for example `{:.6f~P}`) is presentation-layer and is
not modelled, the symbolic command carries the exact value.
-/

namespace RS

/-- Frequency units of the shared pint unit registry that the driver
converts between. -/
inductive FUnit where
  | hz
  | khz
  | mhz
  | ghz
deriving DecidableEq

/-- Scale of a frequency unit, in Hz. -/
def FUnit.scaleHz : FUnit → ℚ
  | .hz => 1
  | .khz => 1000
  | .mhz => 1000000
  | .ghz => 1000000000

/-- A pint frequency quantity: a magnitude together with its unit. -/
structure FreqQty where
  mag : ℚ
  unit : FUnit
deriving DecidableEq

/-- Magnitude of the quantity expressed in Hz (`q.to(ureg.Hz).magnitude`). -/
def FreqQty.toHzMag (q : FreqQty) : ℚ := q.mag * q.unit.scaleHz

/-- Magnitude of the quantity expressed in GHz (`q.to(ureg.GHz).magnitude`). -/
def FreqQty.toGHzMag (q : FreqQty) : ℚ := q.mag * q.unit.scaleHz / 1000000000

/-- pint subtraction `a - b` of two frequency quantities: the result carries
the unit of the left operand. -/
def FreqQty.sub (a b : FreqQty) : FreqQty :=
  ⟨(a.toHzMag - b.toHzMag) / a.unit.scaleHz, a.unit⟩

/-- Python runtime errors that the two driver files can raise. -/
inductive PyErr where
  | nameError (n : String)
  | attributeError (n : String)
deriving DecidableEq

namespace MW

/-- The three tokens the signal source reports for `:FREQ:MODE?` once
lowercased by `get_status` (line 145): `cw`, `list`, `swe`. -/
inductive Mode where
  | cw
  | list
  | swe
deriving DecidableEq

/-- The mode string `get_status` returns: the lowercased token, with `swe`
mapped to `sweep` (lines 145-147). -/
def Mode.name : Mode → String
  | .cw => "cw"
  | .list => "list"
  | .swe => "sweep"

/-- Symbolic forms of the SCPI command strings written by
`SMA_SMB_MW_sources.py`.  Frequency payloads are the GHz magnitudes the
format strings interpolate, powers are dBm magnitudes. -/
inductive Cmd where
  | cls                          -- "*CLS"
  | rst                          -- "*RST"
  | wai                          -- "*WAI"
  | outpStatOff                  -- "OUTP:STAT OFF"
  | outpStatOn                   -- ":OUTP:STAT ON"
  | freqModeCW                   -- ":FREQ:MODE CW"
  | freqModeList                 -- ":FREQ:MODE LIST"
  | freqModeSweep                -- ":FREQ:MODE SWEEP"
  | setFreq (ghz : ℚ)            -- ":FREQ {:.6f~P}" of the GHz quantity
  | setPow (dbm : ℚ)             -- ":POW {:.2f}"
  | listSel                      -- ":LIST:SEL \x22My_list\x22"
  | listFreq (ghzs : List ℚ)     -- "LIST:FREQ ..." (GHz quantities)
  | listPow (dbms : List ℚ)      -- "LIST:POW ..."
  | listModeStep                 -- "LIST:MODE STEP"
  | listTrigSourExt              -- "LIST:TRIG:SOUR EXT"
  | sweModeStep                  -- ":SWE:MODE STEP"
  | sweSpacLin                   -- ":SWE:SPAC LIN"
  | freqStart (ghz : ℚ)          -- ":FREQ:START {:.6f~P}"
  | freqStop (ghz : ℚ)           -- ":FREQ:STOP {:.6f~P}"
  | sweStepLin (ghz : ℚ)         -- ":SWE:STEP:LIN {:.6f~P}"
  | trigFswSourExt               -- "TRIG:FSW:SOUR EXT"
  | listRes                      -- ":LIST:RES"
  | aborSwe                      -- ":ABOR:SWE"
  | trigSlop (pol : String)      -- ":TRIG1:SLOP {pol}"
deriving DecidableEq

/-- Symbolic forms of the query strings of `SMA_SMB_MW_sources.py`. -/
inductive Qry where
  | opc                          -- "*OPC?"
  | outpStat                     -- "OUTP:STAT?"
  | freqMode                     -- ":FREQ:MODE?"
  | pow                          -- ":POW?"
  | listPow                      -- "LIST:POW?"
  | freq                         -- ":FREQ?"
  | freqStar                     -- ":FREQ:STAR?"
  | freqStopQ                    -- ":FREQ:STOP?"
  | sweStep                      -- ":SWE:STEP?"
  | listFreq                     -- ":LIST:FREQ?"
  | trigSlopQ                    -- ":TRIG1:SLOP?"
deriving DecidableEq

/-- One observable transport-level event of the signal-source driver. -/
inductive Ev where
  | write (c : Cmd)
  | query (q : Qry)
  | printMsg (msg : String)
  | closeRM
deriving DecidableEq

/-- Instrument-side state of the signal source: the registers the modelled
commands and queries touch. -/
structure MWState where
  mode : Mode
  running : Bool
  freq : ℚ
  pow : ℚ
  listFreqs : List ℚ
  listPows : List ℚ
  sweepStart : ℚ
  sweepStop : ℚ
  sweepStep : ℚ
deriving DecidableEq

/-- Device behavior left open by the wire protocol: the instrument may clamp
or round a requested frequency (Hz) or power (dBm) to what it can actually
produce.  The driver re-queries rather than trusting the request, so the
returned values go through these functions. -/
structure Device where
  clampFreq : ℚ → ℚ
  clampPow : ℚ → ℚ

/-- Effect of a command on the instrument state.  Frequency-valued commands
carry GHz payloads; the instrument stores Hz. -/
def execCmd (dev : Device) (s : MWState) : Cmd → MWState
  | .outpStatOff => { s with running := false }
  | .outpStatOn => { s with running := true }
  | .freqModeCW => { s with mode := .cw }
  | .freqModeList => { s with mode := .list }
  | .freqModeSweep => { s with mode := .swe }
  | .setFreq g => { s with freq := dev.clampFreq (g * 1000000000) }
  | .setPow p => { s with pow := dev.clampPow p }
  | .listFreq gs =>
      { s with listFreqs := gs.map (fun g => dev.clampFreq (g * 1000000000)) }
  | .listPow ps => { s with listPows := ps.map dev.clampPow }
  | .freqStart g => { s with sweepStart := dev.clampFreq (g * 1000000000) }
  | .freqStop g => { s with sweepStop := dev.clampFreq (g * 1000000000) }
  | .sweStepLin g => { s with sweepStep := dev.clampFreq (g * 1000000000) }
  | _ => s

/-- Result of running a driver method: returned value, final instrument
state, and the transport events in the order they happened. -/
structure MWRes (α : Type) where
  ret : α
  fin : MWState
  evs : List Ev

/-- Events of one `_command_wait` invocation in the normal-completion case
(the first `*OPC?` poll already answers 1): write the command, write `*WAI`,
query `*OPC?` (lines 116-120).  The general polling loop with an arbitrary
reply oracle is modelled separately below as `command_wait`. -/
def cmdWaitEvs (c : Cmd) : List Ev := [.write c, .write .wai, .query .opc]

/-- State/trace effect of `_command_wait` in the normal-completion case. -/
def cmdWait (dev : Device) (s : MWState) (c : Cmd) : MWState × List Ev :=
  (execCmd dev s c, cmdWaitEvs c)

/-- Events of `get_status` (lines 144-145): query `OUTP:STAT?`, then query
`:FREQ:MODE?`. -/
def statusEvs : List Ev := [.query .outpStat, .query .freqMode]

/-- `get_status` (lines 135-148): returns the mode string (with `swe` mapped
to `sweep`) and whether the output is on. -/
def get_status (s : MWState) : MWRes (String × Bool) :=
  ⟨(s.mode.name, s.running), s, statusEvs⟩

/-- `off` (lines 123-132): query status; return if already off, otherwise
send `OUTP:STAT OFF` through the completion protocol. -/
def off (dev : Device) (s : MWState) : MWRes Unit :=
  if (get_status s).ret.2 = false then ⟨(), s, (get_status s).evs⟩
  else
    ⟨(), (cmdWait dev s .outpStatOff).1,
      (get_status s).evs ++ (cmdWait dev s .outpStatOff).2⟩

/-- Shape of a power or frequency reading: a bare float or a parsed list
(numpy array) of floats. -/
inductive Reading where
  | single (q : ℚ)
  | seq (qs : List ℚ)
deriving DecidableEq

/-- The value of the Python comparison `rep.all() == rep[0]` on the left:
numpy `all` is `True` iff every entry is nonzero, and the boolean is promoted
to the float 1.0 / 0.0 by the comparison with `rep[0]`. -/
def npAllRat (xs : List ℚ) : ℚ := if xs.all (fun x => x != 0) then 1 else 0

/-- `get_power` (lines 151-175).  In `cw` and `sweep` mode a single `:POW?`
value; in `list` mode the parsed `LIST:POW?` array, collapsed to its first
element when `rep.all() == rep[0]` holds (line 172).  On an empty list the
subscript `rep[0]` fails (`none`).  The Python membership tests
`"cw" in mode` / `"sweep" in mode` / `"list" in mode` on the three possible
tokens are equivalent to the equality tests used here. -/
def get_power (s : MWState) : MWRes (Option Reading) :=
  if (get_status s).ret.1 = "cw" ∨ (get_status s).ret.1 = "sweep" then
    ⟨some (.single s.pow), s, (get_status s).evs ++ [.query .pow]⟩
  else
    match s.listPows with
    | [] => ⟨none, s, (get_status s).evs ++ [.query .listPow]⟩
    | p :: ps =>
        ⟨some (if npAllRat (p :: ps) = p then Reading.single p
               else Reading.seq (p :: ps)),
         s, (get_status s).evs ++ [.query .listPow]⟩

/-- `get_frequency` (lines 178-202).  `cw`: single `:FREQ?` value; `sweep`:
the list `[start + step, stop, step]` built from the three sweep-register
queries (line 197); `list`: the parsed `:LIST:FREQ?` array. -/
def get_frequency (s : MWState) : MWRes Reading :=
  if (get_status s).ret.1 = "cw" then
    ⟨.single s.freq, s, (get_status s).evs ++ [.query .freq]⟩
  else if (get_status s).ret.1 = "sweep" then
    ⟨.seq [s.sweepStart + s.sweepStep, s.sweepStop, s.sweepStep], s,
      (get_status s).evs ++ [.query .freqStar, .query .freqStopQ, .query .sweStep]⟩
  else
    ⟨.seq s.listFreqs, s, (get_status s).evs ++ [.query .listFreq]⟩

/-- `set_cw_params` (lines 222-259): query status; `off()` if running; mode
switch if the queried mode is not `cw`; optional frequency set (converted to
GHz) and power set (dBm); then the returned triple is re-queried from the
instrument. -/
def set_cw_params (dev : Device) (s : MWState) (frequency : Option FreqQty)
    (power : Option ℚ) : MWRes (String × Reading × Option Reading) :=
  let st := get_status s
  let r1 := if st.ret.2 then ((off dev s).fin, (off dev s).evs) else (s, [])
  let r2 := if st.ret.1 ≠ "cw" then cmdWait dev r1.1 .freqModeCW else (r1.1, [])
  let r3 := match frequency with
    | some f => cmdWait dev r2.1 (.setFreq f.toGHzMag)
    | none => (r2.1, [])
  let r4 := match power with
    | some p => cmdWait dev r3.1 (.setPow p)
    | none => (r3.1, [])
  ⟨((get_status r4.1).ret.1, (get_frequency r4.1).ret, (get_power r4.1).ret),
   r4.1,
   st.evs ++ r1.2 ++ r2.2 ++ r3.2 ++ r4.2 ++ (get_status r4.1).evs
     ++ (get_frequency r4.1).evs ++ (get_power r4.1).evs⟩

/-- The `power` argument of `set_list`: a pint quantity whose magnitude is
either a bare number (broadcast over the frequency list, line 303) or an
array. -/
inductive PowArg where
  | scalar (p : ℚ)
  | arr (ps : List ℚ)
deriving DecidableEq

/-- Common tail of `set_list` (lines 320-328): `:FREQ:MODE LIST` through the
completion protocol, then the two raw trigger-configuration writes, then the
re-queried return triple. -/
def setListTail (dev : Device) (s : MWState) (evs : List Ev) :
    MWRes (Option (String × Reading × Option Reading)) :=
  let r1 := cmdWait dev s .freqModeList
  let s2 := execCmd dev r1.1 .listModeStep
  let s3 := execCmd dev s2 .listTrigSourExt
  ⟨some ((get_status s3).ret.1, (get_frequency s3).ret, (get_power s3).ret),
   s3,
   evs ++ r1.2 ++ [.write .listModeStep, .write .listTrigSourExt]
     ++ (get_status s3).evs ++ (get_frequency s3).evs ++ (get_power s3).evs⟩

/-- `set_list` (lines 279-328): query status; `off()` if running; when both
arguments are given, broadcast a scalar power, check the lengths (printing
and returning `None` on mismatch, lines 304-306), and write the list
buffers; in every non-mismatch case run the common tail. -/
def set_list (dev : Device) (s : MWState) (frequency : Option (List FreqQty))
    (power : Option PowArg) : MWRes (Option (String × Reading × Option Reading)) :=
  let st := get_status s
  let r1 := if st.ret.2 then ((off dev s).fin, (off dev s).evs) else (s, [])
  match frequency, power with
  | some freqs, some pw =>
      let ps := match pw with
        | .scalar p => List.replicate freqs.length p
        | .arr qs => qs
      if freqs.length ≠ ps.length then
        ⟨none, r1.1,
          st.evs ++ r1.2
            ++ [.printMsg "Number of frequencies and power values not matching!"]⟩
      else
        let s2 := execCmd dev r1.1 .listSel
        let s3 := execCmd dev s2 (.listFreq (freqs.map FreqQty.toGHzMag))
        let s4 := execCmd dev s3 (.listPow ps)
        setListTail dev s4
          (st.evs ++ r1.2
            ++ [.write .listSel, .write (.listFreq (freqs.map FreqQty.toGHzMag)),
                .write (.listPow ps)])
  | _, _ => setListTail dev r1.1 (st.evs ++ r1.2)

/-- Subscript into a parsed reading, used only on the unreachable branch of
`set_sweep` below (a `seq` reading there). -/
def Reading.idx : Reading → ℕ → ℚ
  | .single q, _ => q
  | .seq qs, i => qs.getD i 0

/-- `set_sweep` (lines 354-403): query status; `off()` if running; mode
switch if not in sweep mode; when start, stop and step are all given, the
five sweep-configuration commands — the start-frequency command carries
`start - step` converted to GHz (lines 389-390); optional power; external
trigger; then `get_frequency` is bound to the local `sweep_freqs` (line 401)
while the return statement reads the name `sweeps_freqs` (line 402), which is
looked up among the locals and is unbound, so evaluating the second tuple
component raises `NameError` and `get_power` is never reached.  The `points`
parameter is accepted and never read, as in the source. -/
def set_sweep (dev : Device) (s : MWState) (start stop step : Option FreqQty)
    (points : Option ℚ) (power : Option ℚ) :
    MWRes (Except PyErr (String × ℚ × ℚ × ℚ × Option Reading)) :=
  let st := get_status s
  let r1 := if st.ret.2 then ((off dev s).fin, (off dev s).evs) else (s, [])
  let r2 := if st.ret.1 ≠ "sweep" then cmdWait dev r1.1 .freqModeSweep
            else (r1.1, [])
  let r3 := match start, stop, step with
    | some f1, some f2, some f3 =>
        let ra := cmdWait dev r2.1 .sweModeStep
        let rb := cmdWait dev ra.1 .sweSpacLin
        let rc := cmdWait dev rb.1 (.freqStart ((FreqQty.sub f1 f3).toGHzMag))
        let rd := cmdWait dev rc.1 (.freqStop f2.toGHzMag)
        let re := cmdWait dev rd.1 (.sweStepLin f3.toGHzMag)
        (re.1, ra.2 ++ rb.2 ++ rc.2 ++ rd.2 ++ re.2)
    | _, _, _ => (r2.1, [])
  let r4 := match power with
    | some p => cmdWait dev r3.1 (.setPow p)
    | none => (r3.1, [])
  let r5 := cmdWait dev r4.1 .trigFswSourExt
  let locals : List (String × Reading) :=
    [("sweep_freqs", (get_frequency r5.1).ret)]
  match locals.lookup "sweeps_freqs" with
  | none =>
      ⟨.error (.nameError "sweeps_freqs"), r5.1,
        st.evs ++ r1.2 ++ r2.2 ++ r3.2 ++ r4.2 ++ r5.2 ++ (get_frequency r5.1).evs⟩
  | some r =>
      ⟨.ok (st.ret.1, r.idx 0, r.idx 1, r.idx 2, (get_power r5.1).ret), r5.1,
        st.evs ++ r1.2 ++ r2.2 ++ r3.2 ++ r4.2 ++ r5.2
          ++ (get_frequency r5.1).evs ++ (get_power r5.1).evs⟩

/-- `close_communication` (lines 101-104): closes the resource manager; no
command is sent and the instrument state is untouched. -/
def close_communication (s : MWState) : MWRes Unit :=
  ⟨(), s, [.closeRM]⟩

/-- Number of output-disable commands (`OUTP:STAT OFF`) in a trace. -/
def countDisable (evs : List Ev) : ℕ :=
  evs.countP (fun e => match e with
    | .write .outpStatOff => true
    | _ => false)

end MW

/-!
General model of `_command_wait` (SMA_SMB_MW_sources.py lines 107-120).

The instrument replies to successive `*OPC?` polls are abstracted as an
oracle giving the float value parsed from the k-th reply.  The loop body is
`while int(float(query("*OPC?"))) != 1: time.sleep(0.2)`: poll, truncate to
an integer, and sleep 0.2 s (200 ms) before the next poll.  The Python loop
has no iteration bound, so it is modelled with explicit fuel: a run with any
amount of fuel either completes (`some trace`) or has not completed yet
(`none`), and with an oracle that never parses to 1 the run completes for no
amount of fuel.
-/

/-- One observable event of `_command_wait`: a raw write, a query with the
parsed float value of its reply, or a sleep (in seconds). -/
inductive WEv where
  | write (cmd : String)
  | query (cmd : String) (reply : ℚ)
  | sleepSec (t : ℚ)
deriving DecidableEq

/-- Python `int(float(reply))`: truncation of the parsed value toward 0. -/
def pyInt (q : ℚ) : ℤ := if 0 ≤ q then ⌊q⌋ else -⌊-q⌋

/-- The `*OPC?` polling loop of `_command_wait`, starting at reply index
`k`, with explicit fuel.  Each iteration queries `*OPC?`; if the reply
truncates to 1 the loop ends, otherwise it sleeps 0.2 s and polls again. -/
def opcLoop (oracle : ℕ → ℚ) : ℕ → ℕ → Option (List WEv)
  | 0, _ => none
  | n + 1, k =>
      if pyInt (oracle k) = 1 then some [WEv.query "*OPC?" (oracle k)]
      else
        match opcLoop oracle n (k + 1) with
        | none => none
        | some evs =>
            some (WEv.query "*OPC?" (oracle k) :: WEv.sleepSec (1 / 5) :: evs)

/-- `_command_wait(command_str)`: write the command, write `*WAI`, then run
the `*OPC?` polling loop. -/
def command_wait (oracle : ℕ → ℚ) (cmd : String) (fuel : ℕ) :
    Option (List WEv) :=
  match opcLoop oracle fuel 0 with
  | none => none
  | some evs => some (WEv.write cmd :: WEv.write "*WAI" :: evs)

/-- Independent description of the polling trace: starting at reply index
`k`, the polls at indices `k, k+1, ..., k+n` each followed by a 0.2 s sleep
except the last. -/
def expectedPollsFrom (oracle : ℕ → ℚ) (k n : ℕ) : List WEv :=
  (List.range n).flatMap
      (fun j => [WEv.query "*OPC?" (oracle (k + j)), WEv.sleepSec (1 / 5)])
    ++ [WEv.query "*OPC?" (oracle (k + n))]

namespace HMP

/-- Symbolic forms of the SCPI command strings written by `HMP2030.py`. -/
inductive HCmd where
  | instOut (ch : ℕ)             -- "INST OUT{ch}"
  | volt (v : ℚ)                 -- "VOLT {v}"
  | curr (v : ℚ)                 -- "CURR {v}"
  | ctr (param : String) (v : ℚ) -- "{ctrparam} {value}"
  | outpOn                       -- "OUTP ON"
  | outpOff                      -- "OUTP OFF"
  | fuseOn                       -- "FUSE ON"
  | voltProt (v : ℚ)             -- "VOLT:PROT {v}"
  | rstH                         -- "*RST"
  | systRem                      -- "SYST:REM"
  | systBeep                     -- "SYST:BEEP"
deriving DecidableEq

/-- Symbolic forms of the query strings of `HMP2030.py`. -/
inductive HQry where
  | instNsel                     -- "INST:NSEL?"
  | measVolt                     -- "MEAS:VOLT?"
  | measCurr                     -- "MEAS:CURR?"
  | statCond (ch : ℕ)            -- "STAT:QUES:INST:ISUM{ch}:COND?"
  | ctrQ (param : String)        -- "{ctrparam}?"
  | systErr                      -- "SYST:ERR?"
deriving DecidableEq

/-- One observable event of the power-supply driver.  `logError` carries the
constant part of the `logger.error` message (the interpolated number is not
part of the model). -/
inductive HEv where
  | write (c : HCmd)
  | query (q : HQry)
  | logError (msg : String)
  | closeInst
deriving DecidableEq

/-- Instrument-side state of the power supply: the shared channel-selection
register, and the per-channel output and set-point registers. -/
structure HMPState where
  selected : ℕ
  out1 : Bool
  out2 : Bool
  out3 : Bool
  volt1 : ℚ
  volt2 : ℚ
  volt3 : ℚ
  curr1 : ℚ
  curr2 : ℚ
  curr3 : ℚ
deriving DecidableEq

/-- Write the voltage set-point of the currently selected channel. -/
def HMPState.setVoltSel (s : HMPState) (v : ℚ) : HMPState :=
  if s.selected = 1 then { s with volt1 := v }
  else if s.selected = 2 then { s with volt2 := v }
  else if s.selected = 3 then { s with volt3 := v }
  else s

/-- Write the current set-point of the currently selected channel. -/
def HMPState.setCurrSel (s : HMPState) (v : ℚ) : HMPState :=
  if s.selected = 1 then { s with curr1 := v }
  else if s.selected = 2 then { s with curr2 := v }
  else if s.selected = 3 then { s with curr3 := v }
  else s

/-- Write the output state of the currently selected channel. -/
def HMPState.setOutSel (s : HMPState) (b : Bool) : HMPState :=
  if s.selected = 1 then { s with out1 := b }
  else if s.selected = 2 then { s with out2 := b }
  else if s.selected = 3 then { s with out3 := b }
  else s

/-- Effect of a command on the power-supply state. -/
def execH (s : HMPState) : HCmd → HMPState
  | .instOut ch => { s with selected := ch }
  | .volt v => s.setVoltSel v
  | .curr v => s.setCurrSel v
  | .ctr p v =>
      if p = "VOLT" then s.setVoltSel v
      else if p = "CURR" then s.setCurrSel v
      else s
  | .outpOn => s.setOutSel true
  | .outpOff => s.setOutSel false
  | _ => s

/-- Result of running a power-supply method. -/
structure HRes (α : Type) where
  ret : α
  fin : HMPState
  evs : List HEv

/-- Device behavior not determined by the driver: measured values and the
per-channel regulation condition register. -/
structure HDev where
  measVolt : HMPState → ℚ
  measCurr : HMPState → ℚ
  statCond : HMPState → ℕ → ℤ

/-- Fixed per-channel limits of the class (lines 23-28). -/
def _voltage_max_1 : ℚ := 32
def _voltage_max_2 : ℚ := 32
def _voltage_max_3 : ℚ := 32
def _current_max_1 : ℚ := 5
def _current_max_2 : ℚ := 5
def _current_max_3 : ℚ := 5

/-- `_set_channel` (lines 50-55): write `INST OUT{ch}` for channels 1-3,
otherwise only log an error. -/
def _set_channel (s : HMPState) (channel : ℕ) : HMPState × List HEv :=
  if channel = 1 ∨ channel = 2 ∨ channel = 3 then
    (execH s (.instOut channel), [.write (.instOut channel)])
  else (s, [.logError "Wrong channel number. Chose 1, 2 or 3."])

/-- `_get_channel` (lines 57-60): query the selection register. -/
def _get_channel (s : HMPState) : HRes ℕ :=
  ⟨s.selected, s, [.query .instNsel]⟩

/-- `_get_status_channel` (lines 62-66): a single channel-indexed query,
with no channel selection. -/
def _get_status_channel (dev : HDev) (s : HMPState) (channel : ℕ) :
    HRes String :=
  ⟨if dev.statCond s channel = 1 then "CC" else "CV", s,
    [.query (.statCond channel)]⟩

/-- The chained conditional expressions of `get_control_limit`
(lines 212-219): `maxi = m1 if ch == 1 else maxi`, and so on. -/
def limitChain (ch : ℕ) (m1 m2 m3 : ℚ) : ℚ :=
  let maxi : ℚ := 0
  let maxi := if ch = 1 then m1 else maxi
  let maxi := if ch = 2 then m2 else maxi
  if ch = 3 then m3 else maxi

/-- `get_control_limit` (lines 203-220): queries the selected channel only
when no channel is given, then returns `(0, maxi)` from the fixed limit
table. -/
def get_control_limit (s : HMPState) (channel : Option ℕ)
    (ctrparam : String) : HRes (ℚ × ℚ) :=
  let chEvs : ℕ × List HEv := match channel with
    | none => (s.selected, [HEv.query .instNsel])
    | some c => (c, [])
  let maxi :=
    if ctrparam = "VOLT" then
      limitChain chEvs.1 _voltage_max_1 _voltage_max_2 _voltage_max_3
    else limitChain chEvs.1 _current_max_1 _current_max_2 _current_max_3
  ⟨(0, maxi), s, chEvs.2⟩

/-- `set_control_value` (lines 169-182): select the channel first (when
given), then fetch the limits and validate `mini <= value <= maxi`; in range
write `{ctrparam} {value}`, out of range only log. -/
def set_control_value (s : HMPState) (value : ℚ) (channel : Option ℕ)
    (ctrparam : String) : HRes Unit :=
  let r1 := match channel with
    | some ch => _set_channel s ch
    | none => (s, [])
  let lim := get_control_limit r1.1 channel ctrparam
  if lim.ret.1 ≤ value ∧ value ≤ lim.ret.2 then
    ⟨(), execH r1.1 (.ctr ctrparam value),
      r1.2 ++ lim.evs ++ [.write (.ctr ctrparam value)]⟩
  else ⟨(), r1.1, r1.2 ++ lim.evs ++ [.logError "Control value out of range"]⟩

/-- `_set_voltage` (lines 68-76): select the channel first (when given),
then validate against the voltage limits; in range write `VOLT {value}`,
out of range only log. -/
def _set_voltage (s : HMPState) (value : ℚ) (channel : Option ℕ) :
    HRes Unit :=
  let r1 := match channel with
    | some ch => _set_channel s ch
    | none => (s, [])
  let lim := get_control_limit r1.1 channel "VOLT"
  if lim.ret.1 ≤ value ∧ value ≤ lim.ret.2 then
    ⟨(), execH r1.1 (.volt value), r1.2 ++ lim.evs ++ [.write (.volt value)]⟩
  else ⟨(), r1.1, r1.2 ++ lim.evs ++ [.logError "Voltage value out of range"]⟩

/-- The attribute names `class HMP2030` actually defines. -/
def hmp2030Attrs : List String :=
  ["_model", "_address", "_modclass", "_modtype", "_inst",
   "_voltage_max_1", "_current_max_1", "_voltage_max_2", "_current_max_2",
   "_voltage_max_3", "_current_max_3",
   "open_communication", "close_communication", "_set_channel",
   "_get_channel", "_get_status_channel", "_set_voltage", "_get_voltage",
   "_set_current", "_get_current", "_set_on", "_set_off", "_set_all_off",
   "_reset", "_beep", "_error_list", "_set_over_voltage", "_set_over_current",
   "set_address", "get_address", "set_control_value", "get_control_value",
   "get_control_unit", "get_control_limit",
   "process_control_supports_multiple_channels",
   "process_control_get_number_channels", "get_timeout", "set_timeout"]

/-- `_set_current` (lines 85-92): line 88 reads
`self._get_control_limit_current`, an attribute the class does not define,
so the attribute lookup raises `AttributeError` before anything is written
and before any channel selection.  The `then` branch (what the code would do
were the attribute present) is unreachable. -/
def _set_current (s : HMPState) (value : ℚ) (channel : Option ℕ) :
    HRes (Except PyErr Unit) :=
  if "_get_control_limit_current" ∈ hmp2030Attrs then
    ⟨.ok (), execH s (.curr value), [.write (.curr value)]⟩
  else ⟨.error (.attributeError "_get_control_limit_current"), s, []⟩

/-- `_get_voltage` (lines 78-83): select the channel first (when given),
then query the measured voltage. -/
def _get_voltage (dev : HDev) (s : HMPState) (channel : Option ℕ) : HRes ℚ :=
  let r1 := match channel with
    | some ch => _set_channel s ch
    | none => (s, [])
  ⟨dev.measVolt r1.1, r1.1, r1.2 ++ [.query .measVolt]⟩

/-- `_get_current` (lines 94-99): select the channel first (when given),
then query the measured current. -/
def _get_current (dev : HDev) (s : HMPState) (channel : Option ℕ) : HRes ℚ :=
  let r1 := match channel with
    | some ch => _set_channel s ch
    | none => (s, [])
  ⟨dev.measCurr r1.1, r1.1, r1.2 ++ [.query .measCurr]⟩

/-- `_set_on` (lines 101-105): select the channel first (when given), then
write `OUTP ON`. -/
def _set_on (s : HMPState) (channel : Option ℕ) : HMPState × List HEv :=
  let r1 := match channel with
    | some ch => _set_channel s ch
    | none => (s, [])
  (execH r1.1 .outpOn, r1.2 ++ [.write .outpOn])

/-- `_set_off` (lines 107-111): select the channel first (when given), then
write `OUTP OFF`. -/
def _set_off (s : HMPState) (channel : Option ℕ) : HMPState × List HEv :=
  let r1 := match channel with
    | some ch => _set_channel s ch
    | none => (s, [])
  (execH r1.1 .outpOff, r1.2 ++ [.write .outpOff])

/-- `_set_all_off` (lines 113-117): `_set_off` on channels 1, 2, 3. -/
def _set_all_off (s : HMPState) : HMPState × List HEv :=
  let r1 := _set_off s (some 1)
  let r2 := _set_off r1.1 (some 2)
  let r3 := _set_off r2.1 (some 3)
  (r3.1, r1.2 ++ r2.2 ++ r3.2)

/-- `_set_over_voltage` (lines 133-137): select the channel first (when
given), then write `VOLT:PROT {maxi}`. -/
def _set_over_voltage (s : HMPState) (maxi : ℚ) (channel : Option ℕ) :
    HMPState × List HEv :=
  let r1 := match channel with
    | some ch => _set_channel s ch
    | none => (s, [])
  (execH r1.1 (.voltProt maxi), r1.2 ++ [.write (.voltProt maxi)])

/-- `_set_over_current` (lines 139-144): select the channel first (when
given), then write `FUSE ON` and `CURR {maxi}`. -/
def _set_over_current (s : HMPState) (maxi : ℚ) (channel : Option ℕ) :
    HMPState × List HEv :=
  let r1 := match channel with
    | some ch => _set_channel s ch
    | none => (s, [])
  (execH (execH r1.1 .fuseOn) (.curr maxi),
    r1.2 ++ [.write .fuseOn, .write (.curr maxi)])

/-- `close_communication` (lines 45-48): `_set_all_off()` then close the
transport. -/
def close_communication (s : HMPState) : HMPState × List HEv :=
  let r1 := _set_all_off s
  (r1.1, r1.2 ++ [.closeInst])

/-- Number of writes in a power-supply trace. -/
def countWrites (evs : List HEv) : ℕ :=
  evs.countP (fun e => match e with
    | .write _ => true
    | _ => false)

end HMP

/-! Concrete fixtures used by witnesses and counterexamples. -/

/-- A device that accepts every requested frequency and power verbatim. -/
def dev0 : MW.Device := ⟨id, id⟩

/-- Signal source in CW mode with the output running. -/
def mwRun0 : MW.MWState := ⟨.cw, true, 0, 0, [], [], 0, 0, 0⟩

/-- Signal source in CW mode with the output off. -/
def mwIdle : MW.MWState := ⟨.cw, false, 0, 0, [], [], 0, 0, 0⟩

/-- Signal source in sweep mode, start register 5 Hz, stop 10 Hz, step 1 Hz. -/
def sweS0 : MW.MWState := ⟨.swe, false, 0, 0, [], [], 5, 10, 1⟩

/-- Signal source in list mode with two list points at distinct powers
1 dBm and 2 dBm. -/
def listS0 : MW.MWState :=
  ⟨.list, false, 0, 0, [1000000000, 2000000000], [1, 2], 0, 0, 0⟩

/-- Signal source in list mode with two list points at powers 3 dBm and
4 dBm (the collapse comparison fails: `all` promotes to 1.0 which differs
from the first element 3). -/
def listS1 : MW.MWState := ⟨.list, false, 0, 0, [], [3, 4], 0, 0, 0⟩

/-- Power supply with channel 2 selected and all outputs off. -/
def hmpS0 : HMP.HMPState := ⟨2, false, false, false, 0, 0, 0, 0, 0, 0⟩

/-- Power-supply device fixture: all measured values 0, all channels in
constant-voltage condition. -/
def hdev0 : HMP.HDev := ⟨fun _ => 0, fun _ => 0, fun _ _ => 0⟩

/-- Three list frequencies at 1, 2 and 3 GHz. -/
def freqs3 : List FreqQty := [⟨1, .ghz⟩, ⟨2, .ghz⟩, ⟨3, .ghz⟩]

/-- An `*OPC?` oracle whose first two replies parse to 0 and whose later
replies parse to 1. -/
def oracleTwoPolls : ℕ → ℚ := fun k => if k < 2 then 0 else 1

/-- C10: on every path where the preceding transport operations succeed,
`set_sweep` hits the unbound name `sweeps_freqs` in its return statement
(line 402; the query result was bound to `sweep_freqs` on line 401) and
raises `NameError`, never returning the documented tuple. -/
theorem C10_sweep_name_error (dev : MW.Device) (s : MW.MWState)
    (start stop step : Option FreqQty) (points power : Option ℚ) :
    (MW.set_sweep dev s start stop step points power).ret
      = .error (.nameError "sweeps_freqs") := rfl

/-- C1 counterexample: `set_control_value(50, channel=1, "VOLT")` is out of
range (max 32) yet the trace is not empty — the select-channel command
`INST OUT1` is written before the limit check, refuting "zero writes, not
even the select-channel command". -/
theorem C1_counterexample :
    HMP.countWrites (HMP.set_control_value hmpS0 50 (some 1) "VOLT").evs ≠ 0
    ∧ HMP.HEv.write (.instOut 1)
        ∈ (HMP.set_control_value hmpS0 50 (some 1) "VOLT").evs := by
  decide

/-- C1 amended: for channels 1-3 and a value outside the inclusive range
`[0, max]` of the fixed limit table, `set_control_value` and `_set_voltage`
send no set command and log an out-of-range error, but only after having
already written the select-channel command (their whole trace is exactly the
select write followed by the log, and the only state change is the selection
register); `_set_current` raises `AttributeError` (its limit helper
`_get_control_limit_current` does not exist) before sending anything at
all. -/
theorem C1_out_of_range_amended (s : HMP.HMPState) (ch : ℕ) (v : ℚ)
    (p : String) (hch : ch = 1 ∨ ch = 2 ∨ ch = 3)
    (hp : p = "VOLT" ∨ p = "CURR")
    (hv : v < 0 ∨ (if p = "VOLT" then (32 : ℚ) else 5) < v) :
    ((HMP.set_control_value s v (some ch) p).evs
        = [.write (.instOut ch), .logError "Control value out of range"]
      ∧ (HMP.set_control_value s v (some ch) p).fin
          = { s with selected := ch })
    ∧ (v < 0 ∨ (32 : ℚ) < v →
        (HMP._set_voltage s v (some ch)).evs
            = [.write (.instOut ch), .logError "Voltage value out of range"]
          ∧ (HMP._set_voltage s v (some ch)).fin = { s with selected := ch })
    ∧ (HMP._set_current s v (some ch)).ret
        = .error (.attributeError "_get_control_limit_current")
    ∧ (HMP._set_current s v (some ch)).evs = []
    ∧ (HMP._set_current s v (some ch)).fin = s := by
  have hv32 : ∀ w : ℚ, w < 0 ∨ (32 : ℚ) < w → ¬(0 ≤ w ∧ w ≤ (32 : ℚ)) := by
    rintro w (h | h) ⟨h1, h2⟩ <;> linarith
  have hsv : v < 0 ∨ (32 : ℚ) < v →
      (HMP._set_voltage s v (some ch)).evs
          = [.write (.instOut ch), .logError "Voltage value out of range"]
        ∧ (HMP._set_voltage s v (some ch)).fin = { s with selected := ch } := by
    intro hv2
    rcases hch with rfl | rfl | rfl <;>
      simp [HMP._set_voltage, HMP._set_channel, HMP.get_control_limit,
        HMP.limitChain, HMP.execH, HMP._voltage_max_1, HMP._voltage_max_2,
        HMP._voltage_max_3, if_neg (hv32 v hv2)]
  refine ⟨?_, hsv, rfl, rfl, rfl⟩
  rcases hp with rfl | rfl
  · rw [if_pos rfl] at hv
    rcases hch with rfl | rfl | rfl <;>
      simp [HMP.set_control_value, HMP._set_channel, HMP.get_control_limit,
        HMP.limitChain, HMP.execH, HMP._voltage_max_1, HMP._voltage_max_2,
        HMP._voltage_max_3, if_neg (hv32 v hv)]
  · rw [if_neg (by decide : ¬("CURR" = "VOLT"))] at hv
    have hnot5 : ¬(0 ≤ v ∧ v ≤ (5 : ℚ)) := by
      rintro ⟨h1, h2⟩; rcases hv with h | h <;> linarith
    rcases hch with rfl | rfl | rfl <;>
      simp [HMP.set_control_value, HMP._set_channel, HMP.get_control_limit,
        HMP.limitChain, HMP.execH, HMP._current_max_1, HMP._current_max_2,
        HMP._current_max_3, if_neg hnot5]

/-- C1 witness: instantiates the amended theorem at channel 1,
`value = 50 V` against the 32 V limit. -/
theorem C1_witness :
    ((1 : ℕ) = 1 ∨ (1 : ℕ) = 2 ∨ (1 : ℕ) = 3)
    ∧ ("VOLT" = "VOLT" ∨ "VOLT" = "CURR")
    ∧ ((50 : ℚ) < 0 ∨ (if "VOLT" = "VOLT" then (32 : ℚ) else 5) < 50)
    ∧ (HMP.set_control_value hmpS0 50 (some 1) "VOLT").evs
        = [.write (.instOut 1), .logError "Control value out of range"] := by
  refine ⟨Or.inl rfl, Or.inl rfl, Or.inr (by norm_num), ?_⟩
  exact (C1_out_of_range_amended hmpS0 1 50 "VOLT" (Or.inl rfl) (Or.inl rfl)
    (Or.inr (by norm_num))).1.1

/-- C4 counterexample: closing a signal-source session whose output is
running sends no command at all — in particular no output-disable — and
leaves the output running, refuting "close() first forces a safe
de-energized state for either family". -/
theorem C4_counterexample :
    (MW.close_communication mwRun0).evs = [.closeRM]
    ∧ MW.Ev.write .outpStatOff ∉ (MW.close_communication mwRun0).evs
    ∧ (MW.close_communication mwRun0).fin.running = true := by
  decide

/-- C4 amended: the power-supply `close_communication` does turn all three
channels off (select 1 / off / select 2 / off / select 3 / off) before
releasing the transport, but the signal-source `close_communication` only
closes the resource manager: it sends nothing and leaves the instrument
state, including a running output, untouched. -/
theorem C4_close_amended (s : HMP.HMPState) (t : MW.MWState) :
    (HMP.close_communication s).2
      = [.write (.instOut 1), .write .outpOff, .write (.instOut 2),
         .write .outpOff, .write (.instOut 3), .write .outpOff, .closeInst]
    ∧ (HMP.close_communication s).1
        = { s with selected := 3, out1 := false, out2 := false, out3 := false }
    ∧ (MW.close_communication t).evs = [.closeRM]
    ∧ (MW.close_communication t).fin = t := by
  refine ⟨?_, ?_, rfl, rfl⟩ <;>
    simp [HMP.close_communication, HMP._set_all_off, HMP._set_off,
      HMP._set_channel, HMP.execH, HMP.HMPState.setOutSel]

/-- C9 counterexample: in list mode with the distinct powers 1 dBm and
2 dBm, `get_power` does not return one quantity per list point: the numpy
comparison `rep.all() == rep[0]` holds (`all` is true, promoted to 1.0,
equal to the first element) and the reading collapses to the single value
1. -/
theorem C9_counterexample :
    (MW.get_power listS0).ret = some (.single 1)
    ∧ (MW.get_power listS0).ret ≠ some (.seq listS0.listPows) := by
  decide

/-- C9 amended: `get_power` returns a single quantity in CW and in sweep
mode; in list mode it returns one quantity per list point only when the
collapse condition `rep.all() == rep[0]` (numpy all-nonzero promoted to
1.0/0.0, compared with the first element) fails, and collapses to the single
first element when it holds. -/
theorem C9_get_power_shape_amended (s : MW.MWState) :
    (s.mode = .cw ∨ s.mode = .swe →
      (MW.get_power s).ret = some (.single s.pow))
    ∧ (∀ p ps, s.mode = .list → s.listPows = p :: ps →
        (MW.npAllRat (p :: ps) ≠ p →
          (MW.get_power s).ret = some (.seq (p :: ps)))
        ∧ (MW.npAllRat (p :: ps) = p →
          (MW.get_power s).ret = some (.single p))) := by
  constructor
  · rintro (h | h) <;> simp [MW.get_power, MW.get_status, MW.Mode.name, h]
  · intro p ps hm hl
    constructor <;> intro hc <;>
      simp [MW.get_power, MW.get_status, MW.Mode.name, hm, hl, hc]

/-- C9 witness: instantiates the amended theorem in CW mode, in list mode
with powers `[3, 4]` (no collapse: the reading is the full sequence), and in
list mode with powers `[1, 2]` (collapse to the single value 1). -/
theorem C9_witness :
    (MW.get_power mwIdle).ret = some (.single mwIdle.pow)
    ∧ (MW.get_power listS1).ret = some (.seq [3, 4])
    ∧ (MW.get_power listS0).ret = some (.single 1) :=
  ⟨(C9_get_power_shape_amended mwIdle).1 (Or.inl rfl),
   ((C9_get_power_shape_amended listS1).2 3 [4] rfl rfl).1 (by decide),
   ((C9_get_power_shape_amended listS0).2 1 [2] rfl rfl).2 (by decide)⟩

/-- C3 counterexample: with the output running, `set_list` on 3 frequencies
and 2 powers does return the mismatch failure (`None`), but only after an
output-disable command has been sent and the output state has changed —
refuting "detected before any command is sent, with no instrument state
change". -/
theorem C3_counterexample :
    (MW.set_list dev0 mwRun0 (some freqs3) (some (.arr [0, 1]))).ret = none
    ∧ MW.Ev.write .outpStatOff
        ∈ (MW.set_list dev0 mwRun0 (some freqs3) (some (.arr [0, 1]))).evs
    ∧ (MW.set_list dev0 mwRun0 (some freqs3) (some (.arr [0, 1]))).fin.running
        ≠ mwRun0.running := by
  decide

/-- C3 amended: when frequencies and a power sequence of a different length
are both given, `set_list` fails (prints the mismatch message and returns
`None`) and sends none of the list-configuration commands; but the check
happens only after the initial status query and, if the output was running,
after `off()` has sent an output-disable command, so in that case an
instrument state change precedes the detection. -/
theorem C3_length_mismatch_amended (dev : MW.Device) (s : MW.MWState)
    (freqs : List FreqQty) (ps : List ℚ)
    (h : freqs.length ≠ ps.length) :
    (MW.set_list dev s (some freqs) (some (.arr ps))).ret = none
    ∧ (MW.set_list dev s (some freqs) (some (.arr ps))).evs
        = MW.statusEvs
          ++ (if s.running then MW.statusEvs ++ MW.cmdWaitEvs .outpStatOff
              else [])
          ++ [.printMsg "Number of frequencies and power values not matching!"]
    ∧ (MW.set_list dev s (some freqs) (some (.arr ps))).fin
        = (if s.running then MW.execCmd dev s .outpStatOff else s) := by
  cases hr : s.running <;>
    simp [MW.set_list, MW.get_status, MW.off, MW.cmdWait, MW.cmdWaitEvs,
      MW.statusEvs, hr, h]

/-- C3 witness: instantiates the amended theorem on a running CW source with
3 frequencies and 2 powers. -/
theorem C3_witness :
    freqs3.length ≠ ([0, 1] : List ℚ).length
    ∧ (MW.set_list dev0 mwRun0 (some freqs3) (some (.arr [0, 1]))).ret = none
    ∧ (MW.set_list dev0 mwRun0 (some freqs3) (some (.arr [0, 1]))).evs
        = MW.statusEvs
          ++ (if mwRun0.running then MW.statusEvs ++ MW.cmdWaitEvs .outpStatOff
              else [])
          ++ [.printMsg "Number of frequencies and power values not matching!"] := by
  refine ⟨by decide, ?_, ?_⟩
  · exact (C3_length_mismatch_amended dev0 mwRun0 freqs3 [0, 1] (by decide)).1
  · exact (C3_length_mismatch_amended dev0 mwRun0 freqs3 [0, 1] (by decide)).2.1

/-- Trace of two consecutive `off()` calls, the second starting from the
state the first one left. -/
def offTwiceEvs (dev : MW.Device) (s : MW.MWState) : List MW.Ev :=
  (MW.off dev s).evs ++ (MW.off dev (MW.off dev s).fin).evs

/-- C6 counterexample: from a state whose output is already off, calling
`off()` twice issues zero output-disable commands, not exactly one as
claimed for every instrument state. -/
theorem C6_counterexample : MW.countDisable (offTwiceEvs dev0 mwIdle) ≠ 1 := by
  decide

/-- C6 amended: two consecutive `off()` calls issue exactly one
output-disable command when the output was initially running and zero
otherwise; the second call always just queries status (which reports the
output off) and sends nothing. -/
theorem C6_off_twice_amended (dev : MW.Device) (s : MW.MWState) :
    MW.countDisable (offTwiceEvs dev s) = (if s.running then 1 else 0)
    ∧ (MW.off dev (MW.off dev s).fin).evs = MW.statusEvs
    ∧ MW.countDisable (MW.off dev (MW.off dev s).fin).evs = 0 := by
  cases hr : s.running <;>
    simp [offTwiceEvs, MW.off, MW.get_status, MW.cmdWait, MW.cmdWaitEvs,
      MW.execCmd, MW.statusEvs, MW.countDisable, hr]

/-- C5: when start, stop and step are all given, the start-frequency command
`set_sweep` sends carries `start - step` converted to GHz; in sweep mode
`get_frequency` reports the instrument start register plus the step register
(with stop and step alongside); and for start 1 GHz, step 10 MHz the sent
start value `start - step` equals 990 MHz, that is 0.99 GHz. -/
theorem C5_sweep_start_offset :
    (∀ (dev : MW.Device) (s : MW.MWState) (f1 f2 f3 : FreqQty)
        (points power : Option ℚ),
      MW.Ev.write (.freqStart ((FreqQty.sub f1 f3).toGHzMag))
        ∈ (MW.set_sweep dev s (some f1) (some f2) (some f3) points power).evs)
    ∧ (∀ s : MW.MWState, s.mode = .swe →
        (MW.get_frequency s).ret
          = .seq [s.sweepStart + s.sweepStep, s.sweepStop, s.sweepStep])
    ∧ (FreqQty.sub ⟨1, .ghz⟩ ⟨10, .mhz⟩).toGHzMag
        = (FreqQty.mk 990 .mhz).toGHzMag
    ∧ (FreqQty.sub ⟨1, .ghz⟩ ⟨10, .mhz⟩).toGHzMag = 99 / 100 := by
  refine ⟨?_, ?_, ?_, ?_⟩
  case refine_3 =>
    norm_num [FreqQty.sub, FreqQty.toGHzMag, FreqQty.toHzMag, FUnit.scaleHz]
  case refine_4 =>
    norm_num [FreqQty.sub, FreqQty.toGHzMag, FreqQty.toHzMag, FUnit.scaleHz]
  · intro dev s f1 f2 f3 points power
    cases hr : s.running <;> cases hm : s.mode <;> cases points <;> cases power <;>
      simp [MW.set_sweep, MW.get_status, MW.off, MW.cmdWait, MW.cmdWaitEvs,
        MW.statusEvs, MW.Mode.name, MW.get_frequency, MW.execCmd, hr, hm,
        List.lookup]
  · intro s hm
    simp [MW.get_frequency, MW.get_status, MW.Mode.name, hm]

/-- C5 witness: instantiates the sweep-command part on an idle CW source
with start 1 GHz, stop 2 GHz, step 10 MHz, and the reading part on a
sweep-mode state. -/
theorem C5_witness :
    MW.Ev.write (.freqStart ((FreqQty.sub ⟨1, .ghz⟩ ⟨10, .mhz⟩).toGHzMag))
      ∈ (MW.set_sweep dev0 mwIdle (some ⟨1, .ghz⟩) (some ⟨2, .ghz⟩)
          (some ⟨10, .mhz⟩) none none).evs
    ∧ sweS0.mode = .swe
    ∧ (MW.get_frequency sweS0).ret
        = .seq [sweS0.sweepStart + sweS0.sweepStep, sweS0.sweepStop,
                sweS0.sweepStep] :=
  ⟨C5_sweep_start_offset.1 dev0 mwIdle ⟨1, .ghz⟩ ⟨2, .ghz⟩ ⟨10, .mhz⟩ none none,
   rfl, C5_sweep_start_offset.2.1 sweS0 rfl⟩

/-- C8 counterexample: the regulation-status read `_get_status_channel(2)`
is a channel-targeted operation whose trace is a single channel-indexed
query with zero writes — no select-channel command is sent first, refuting
the claim for this operation. -/
theorem C8_counterexample :
    (HMP._get_status_channel hdev0 hmpS0 2).evs = [.query (.statCond 2)]
    ∧ HMP.countWrites (HMP._get_status_channel hdev0 hmpS0 2).evs = 0 := by
  decide

/-- C8 amended: for channels 1-3, the set/read/on-off/protection operations
that take a channel do write the select-channel command first
(`set_control_value`, `_set_voltage`, `_get_voltage`, `_get_current`,
`_set_on`, `_set_off`, `_set_over_voltage`, `_set_over_current`); but
`_get_status_channel` instead embeds the channel in its query and performs
no selection, and `_set_current` fails with `AttributeError` before any
event, selection included. -/
theorem C8_channel_select_amended (dev : HMP.HDev) (s : HMP.HMPState)
    (v : ℚ) (p : String) (ch : ℕ) (hch : ch = 1 ∨ ch = 2 ∨ ch = 3) :
    (HMP.set_control_value s v (some ch) p).evs.head?
        = some (.write (.instOut ch))
    ∧ (HMP._set_voltage s v (some ch)).evs.head? = some (.write (.instOut ch))
    ∧ (HMP._get_voltage dev s (some ch)).evs.head? = some (.write (.instOut ch))
    ∧ (HMP._get_current dev s (some ch)).evs.head? = some (.write (.instOut ch))
    ∧ (HMP._set_on s (some ch)).2.head? = some (.write (.instOut ch))
    ∧ (HMP._set_off s (some ch)).2.head? = some (.write (.instOut ch))
    ∧ (HMP._set_over_voltage s v (some ch)).2.head?
        = some (.write (.instOut ch))
    ∧ (HMP._set_over_current s v (some ch)).2.head?
        = some (.write (.instOut ch))
    ∧ (HMP._get_status_channel dev s ch).evs = [.query (.statCond ch)]
    ∧ (HMP._set_current s v (some ch)).evs = [] := by
  rcases hch with rfl | rfl | rfl <;>
    refine ⟨?_, ?_, rfl, rfl, rfl, rfl, rfl, rfl, rfl, rfl⟩ <;>
    · simp [HMP.set_control_value, HMP._set_voltage, HMP._set_channel,
        HMP.get_control_limit, HMP.limitChain, HMP.execH]
      split <;> (try split) <;> rfl

/-- C8 witness: instantiates the amended theorem at channel 1 for a voltage
set and an output-on. -/
theorem C8_witness :
    ((1 : ℕ) = 1 ∨ (1 : ℕ) = 2 ∨ (1 : ℕ) = 3)
    ∧ (HMP.set_control_value hmpS0 7 (some 1) "VOLT").evs.head?
        = some (.write (.instOut 1))
    ∧ (HMP._set_on hmpS0 (some 1)).2.head? = some (.write (.instOut 1)) := by
  refine ⟨Or.inl rfl, ?_, ?_⟩
  · exact (C8_channel_select_amended hdev0 hmpS0 7 "VOLT" 1 (Or.inl rfl)).1
  · exact (C8_channel_select_amended hdev0 hmpS0 7 "VOLT" 1
      (Or.inl rfl)).2.2.2.2.1

/-- C7: `set_cw_params` disables the output first exactly when it was
running (and does so before any configuration command), sends the CW
mode-switch exactly when the queried mode was not CW, sends the optional
frequency converted to GHz and the optional power in dBm, and returns the
re-queried mode, frequency and power — the values the instrument ended up
with (its clamp of the request), not the request itself. -/
theorem C7_cw_params (dev : MW.Device) (s : MW.MWState)
    (frequency : Option FreqQty) (power : Option ℚ) :
    ((MW.set_cw_params dev s frequency power).ret
        = ("cw",
           .single (MW.set_cw_params dev s frequency power).fin.freq,
           some (.single (MW.set_cw_params dev s frequency power).fin.pow)))
    ∧ (MW.Ev.write .outpStatOff ∈ (MW.set_cw_params dev s frequency power).evs
        ↔ s.running = true)
    ∧ (MW.Ev.write .freqModeCW ∈ (MW.set_cw_params dev s frequency power).evs
        ↔ s.mode ≠ .cw)
    ∧ (s.running = true → ∃ t, (MW.set_cw_params dev s frequency power).evs
        = MW.statusEvs ++ MW.statusEvs ++ MW.cmdWaitEvs .outpStatOff ++ t)
    ∧ (∀ f, frequency = some f →
        MW.Ev.write (.setFreq f.toGHzMag)
            ∈ (MW.set_cw_params dev s frequency power).evs
        ∧ (MW.set_cw_params dev s frequency power).fin.freq
            = dev.clampFreq (f.toGHzMag * 1000000000))
    ∧ (∀ p, power = some p →
        MW.Ev.write (.setPow p) ∈ (MW.set_cw_params dev s frequency power).evs
        ∧ (MW.set_cw_params dev s frequency power).fin.pow = dev.clampPow p) := by
  refine ⟨?_, ?_, ?_, ?_, ?_, ?_⟩ <;>
    cases hr : s.running <;> cases hm : s.mode <;>
      cases frequency <;> cases power <;>
      simp [MW.set_cw_params, MW.off, MW.get_status, MW.cmdWait, MW.cmdWaitEvs,
        MW.statusEvs, MW.Mode.name, MW.get_frequency, MW.get_power,
        MW.execCmd, hr, hm]

/-- C7 witness: instantiates the theorem on a running CW source with a
2.5 GHz frequency and a -10 dBm power request, checking the returned triple
is the re-queried one and both set commands were sent. -/
theorem C7_witness :
    ((MW.set_cw_params dev0 mwRun0 (some ⟨5 / 2, .ghz⟩) (some (-10))).ret
        = ("cw",
           .single (MW.set_cw_params dev0 mwRun0
                      (some ⟨5 / 2, .ghz⟩) (some (-10))).fin.freq,
           some (.single (MW.set_cw_params dev0 mwRun0
                      (some ⟨5 / 2, .ghz⟩) (some (-10))).fin.pow)))
    ∧ MW.Ev.write (.setFreq (FreqQty.mk (5 / 2) .ghz).toGHzMag)
        ∈ (MW.set_cw_params dev0 mwRun0 (some ⟨5 / 2, .ghz⟩) (some (-10))).evs
    ∧ MW.Ev.write (.setPow (-10))
        ∈ (MW.set_cw_params dev0 mwRun0 (some ⟨5 / 2, .ghz⟩) (some (-10))).evs
    ∧ (MW.Ev.write .outpStatOff
        ∈ (MW.set_cw_params dev0 mwRun0 (some ⟨5 / 2, .ghz⟩) (some (-10))).evs
        ↔ mwRun0.running = true) := by
  have h := C7_cw_params dev0 mwRun0 (some ⟨5 / 2, .ghz⟩) (some (-10))
  exact ⟨h.1, (h.2.2.2.2.1 _ rfl).1, (h.2.2.2.2.2 _ rfl).1, h.2.1⟩

/-- Unfolding of the expected polling trace: the poll at the start index,
a sleep, and the remaining polls shifted by one. -/
theorem expectedPollsFrom_succ (oracle : ℕ → ℚ) (k n : ℕ) :
    expectedPollsFrom oracle k (n + 1)
      = WEv.query "*OPC?" (oracle k) :: WEv.sleepSec (1 / 5)
          :: expectedPollsFrom oracle (k + 1) n := by
  unfold expectedPollsFrom
  rw [List.range_succ_eq_map, List.flatMap_cons, List.flatMap_map]
  have harg : (fun j => [WEv.query "*OPC?" (oracle (k + Nat.succ j)),
      WEv.sleepSec (1 / 5)])
      = (fun j => [WEv.query "*OPC?" (oracle (k + 1 + j)),
      WEv.sleepSec (1 / 5)]) := by
    funext j
    have hj : k + Nat.succ j = k + 1 + j := by omega
    rw [hj]
  have hend : k + (n + 1) = k + 1 + n := by omega
  rw [hend]
  simp only [Nat.add_zero, List.cons_append, List.nil_append,
    List.append_assoc]
  rw [harg]

/-- The polling loop completes exactly at the first index whose reply
truncates to 1, producing the expected poll/sleep alternation. -/
theorem opcLoop_spec (oracle : ℕ → ℚ) :
    ∀ n k fuel, (∀ j, j < n → pyInt (oracle (k + j)) ≠ 1) →
    pyInt (oracle (k + n)) = 1 → n < fuel →
    opcLoop oracle fuel k = some (expectedPollsFrom oracle k n) := by
  intro n
  induction n with
  | zero =>
      intro k fuel h h1 hf
      obtain ⟨m, rfl⟩ : ∃ m, fuel = m + 1 := ⟨fuel - 1, by omega⟩
      rw [opcLoop, if_pos (by simpa using h1)]
      simp [expectedPollsFrom]
  | succ n ih =>
      intro k fuel h h1 hf
      obtain ⟨m, rfl⟩ : ∃ m, fuel = m + 1 := ⟨fuel - 1, by omega⟩
      have h0 : pyInt (oracle k) ≠ 1 := by simpa using h 0 (by omega)
      have hshift : ∀ j, j < n → pyInt (oracle (k + 1 + j)) ≠ 1 := by
        intro j hj
        have := h (j + 1) (by omega)
        simpa [show k + (j + 1) = k + 1 + j from by omega] using this
      have h1s : pyInt (oracle (k + 1 + n)) = 1 := by
        simpa [show k + (n + 1) = k + 1 + n from by omega] using h1
      rw [opcLoop, if_neg h0, ih (k + 1) m hshift h1s (by omega),
        expectedPollsFrom_succ]

/-- With an oracle that never truncates to 1 the loop completes for no
amount of fuel. -/
theorem opcLoop_none (oracle : ℕ → ℚ) (h : ∀ k, pyInt (oracle k) ≠ 1) :
    ∀ fuel k, opcLoop oracle fuel k = none := by
  intro fuel
  induction fuel with
  | zero => intro k; rfl
  | succ m ih => intro k; rw [opcLoop, if_neg (h k), ih (k + 1)]

/-- C2: for every command string, `_command_wait` writes the command, writes
the sync marker `*WAI`, then polls `*OPC?`, parsing each reply as an integer
and sleeping 0.2 s (200 ms) between polls, returning exactly when the parsed
value first equals 1 (the completed trace is the write/write prefix followed
by the poll/sleep alternation ending at the first reply that parses to 1);
and the loop has no iteration bound or deadline: if no reply ever parses to
1 it never completes, for any amount of fuel. -/
theorem C2_command_wait :
    (∀ (cmd : String) (oracle : ℕ → ℚ) (n fuel : ℕ),
      (∀ j, j < n → pyInt (oracle j) ≠ 1) → pyInt (oracle n) = 1 →
      n < fuel →
      command_wait oracle cmd fuel
        = some (WEv.write cmd :: WEv.write "*WAI"
            :: expectedPollsFrom oracle 0 n))
    ∧ (∀ (cmd : String) (oracle : ℕ → ℚ) (fuel : ℕ),
      (∀ k, pyInt (oracle k) ≠ 1) → command_wait oracle cmd fuel = none) := by
  constructor
  · intro cmd oracle n fuel h h1 hf
    rw [command_wait, opcLoop_spec oracle n 0 fuel (by simpa using h)
      (by simpa using h1) hf]
  · intro cmd oracle fuel h
    rw [command_wait, opcLoop_none oracle h fuel 0]

/-- C2 witness: a completing run whose first two replies parse to 0 and a
never-completing oracle constantly replying 0. -/
theorem C2_witness :
    (∀ j, j < 2 → pyInt (oracleTwoPolls j) ≠ 1)
    ∧ pyInt (oracleTwoPolls 2) = 1
    ∧ command_wait oracleTwoPolls "*CLS" 5
        = some (WEv.write "*CLS" :: WEv.write "*WAI"
            :: expectedPollsFrom oracleTwoPolls 0 2)
    ∧ command_wait (fun _ => (0 : ℚ)) "*RST" 7 = none := by
  refine ⟨by decide, by decide, ?_, ?_⟩
  · exact C2_command_wait.1 "*CLS" oracleTwoPolls 2 5 (by decide) (by decide)
      (by omega)
  · exact C2_command_wait.2 "*RST" (fun _ => 0) 7 (by intro k; simp [pyInt])

end RS
